import Mathlib

/-!
Shallow embedding of the tasking subsystem of `pulpcore`
(`src/pulpcore/app/models/task.py`): the task state machine, the worker
registry with heartbeats, the advisory-lock key folding, and task groups.

Timestamps are modelled as integers (seconds); the durable store holds one
row per entity, and the in-memory Django instance next to its durable row is
modelled explicitly where an operation's refresh behaviour matters.
-/

namespace Pulp

/-- Task states, `TASK_CHOICES` from `pulpcore.constants`:
waiting, skipped, running, completed, failed, canceled. -/
inductive TaskState where
  | waiting
  | skipped
  | running
  | completed
  | failed
  | canceled
  deriving DecidableEq, Repr, Fintype

/-- Modelled from the spec: `TASK_FINAL_STATES` lives in `pulpcore.constants`,
which is not among the source files; the spec's state machine sends
`waiting → running → \x7bcompleted, failed, canceled, skipped\x7d`, so the
terminal (final) states are completed, failed, canceled and skipped. -/
def TASK_FINAL_STATES : List TaskState :=
  [TaskState.skipped, TaskState.completed, TaskState.failed, TaskState.canceled]

/-- Modelled from the spec: `exception_to_dict` lives in `pulpcore.exceptions`,
not among the source files; the spec records a failure as structured data,
"exception type/message plus formatted stack trace text". -/
structure ErrorPayload where
  description : String
  traceback : String
  deriving DecidableEq, Repr

/-- Modelled from the spec: builds the structured error payload stored on a
failed task from the exception text and the formatted traceback text. -/
def exception_to_dict (exc : String) (tb_str : String) : ErrorPayload :=
  ⟨exc, tb_str⟩

/-- The fields of the `Task` model relevant to the tasking claims
(`task.py`, class `Task`). Timestamps are nullable (`Option Int`). -/
structure Task where
  state : TaskState
  name : String
  logging_cid : String
  startedAt : Option Int
  finishedAt : Option Int
  error : Option ErrorPayload
  reserved_resources_record : Option (List String)
  deriving DecidableEq, Repr

/-- A task's durable row (`db`) together with the in-memory Django instance
(`mem`) that shares its primary key. `refresh_from_db` copies `db` into
`mem`. -/
structure TaskCtx where
  db : Task
  mem : Task
  deriving DecidableEq, Repr

/-- `_uuid_to_advisory_lock` from `task.py` line 150: fold the 128-bit UUID
integer into a 63-bit key: `((value >> 64) ^ value) & 0x7FFFFFFFFFFFFFFF`. -/
def _uuid_to_advisory_lock (value : Nat) : Nat :=
  ((value >>> 64) ^^^ value) &&& 0x7FFFFFFFFFFFFFFF

/-- The advisory-lock key formula exactly as the spec words it:
"maps the task's 128-bit identity into a 63-bit signed integer lock key via
`((id >> 64) XOR id) & 0x7FFFFFFFFFFFFFFF`". Kept as a separate definition
so it can be compared with the source's `_uuid_to_advisory_lock`. -/
def advisoryLockKeySpec (id : Nat) : Nat :=
  ((id >>> 64) ^^^ id) &&& 0x7FFFFFFFFFFFFFFF

/-- A task execution context after `__enter__`: holds the primary key and the
lock key stored on `self.lock`. -/
structure TaskSession where
  pk : Nat
  lock : Nat
  deriving DecidableEq, Repr

/-- `Task.__enter__`: compute `self.lock = _uuid_to_advisory_lock(self.pk.int)`
and attempt `pg_try_advisory_lock(self.lock)` (non-blocking). The keyed-lock
service state is the list of keys currently held by other sessions; the
attempt succeeds exactly when the key is free, otherwise the acquire raises
`AdvisoryLockError("Could not acquire lock.")`. -/
def Task.enter (pk : Nat) (held : List Nat) :
    Except String (TaskSession × List Nat) :=
  let lock := _uuid_to_advisory_lock pk
  if lock ∈ held then Except.error "Could not acquire lock."
  else Except.ok (⟨pk, lock⟩, lock :: held)

/-- `Task.__exit__`: execute `pg_advisory_unlock(self.lock)` on the key stored
by `__enter__`; raises `RuntimeError("Lock not held.")` when the key was not
held. -/
def Task.exit (s : TaskSession) (held : List Nat) : Except String (List Nat) :=
  if s.lock ∈ held then Except.ok (held.erase s.lock)
  else Except.error "Lock not held."

/-- `Task.set_running` (`task.py` lines 233-244): atomic conditional update
`UPDATE ... SET state=running, started_at=now WHERE pk=self AND state=waiting`;
`rows != 1` logs a warning (returned as the Bool); afterwards
`refresh_from_db` copies the durable row into the in-memory instance. -/
def TaskCtx.set_running (c : TaskCtx) (now : Int) : TaskCtx × Bool :=
  let rows : Nat := if c.db.state = TaskState.waiting then 1 else 0
  let db' := if c.db.state = TaskState.waiting then
      { c.db with state := TaskState.running, startedAt := some now }
    else c.db
  (⟨db', db'⟩, rows != 1)

/-- `Task.set_completed` (`task.py` lines 246-263): atomic conditional update
`UPDATE ... SET state=completed, finished_at=now WHERE pk=self AND state NOT
IN TASK_FINAL_STATES`; `rows != 1` logs a warning (the Bool); then
`refresh_from_db`. -/
def TaskCtx.set_completed (c : TaskCtx) (now : Int) : TaskCtx × Bool :=
  let rows : Nat := if c.db.state ∈ TASK_FINAL_STATES then 0 else 1
  let db' := if c.db.state ∈ TASK_FINAL_STATES then c.db
    else { c.db with state := TaskState.completed, finishedAt := some now }
  (⟨db', db'⟩, rows != 1)

/-- `Task.set_failed` (`task.py` lines 265-288): atomic conditional update
`UPDATE ... SET state=failed, finished_at=now, error=exception_to_dict(exc,
tb_str) WHERE pk=self AND state NOT IN TASK_FINAL_STATES`; on `rows != 1` it
raises `RuntimeError("Attempt to set a finished task to failed.")` (the
`some` message) before `refresh_from_db` runs, so neither the durable row nor
the in-memory instance changes on that path. -/
def TaskCtx.set_failed (c : TaskCtx) (exc : String) (tb_str : String)
    (now : Int) : TaskCtx × Option String :=
  let rows : Nat := if c.db.state ∈ TASK_FINAL_STATES then 0 else 1
  if rows != 1 then
    (c, some "Attempt to set a finished task to failed.")
  else
    let db' := { c.db with
        state := TaskState.failed
        finishedAt := some now
        error := some (exception_to_dict exc tb_str) }
    (⟨db', db'⟩, none)

/-- The `Worker` model (`task.py`, class `Worker`): a unique name and the
timestamp of the last heartbeat. -/
structure Worker where
  name : String
  last_heartbeat : Int
  deriving DecidableEq, Repr

/-- `Worker.online` (`task.py` lines 104-118):
`last_heartbeat >= now - timedelta(seconds=WORKER_TTL)`. -/
def Worker.online (w : Worker) (now ttl : Int) : Bool :=
  decide (w.last_heartbeat ≥ now - ttl)

/-- `Worker.missing` (`task.py` lines 120-135):
`last_heartbeat < now - timedelta(seconds=WORKER_TTL)`. -/
def Worker.missing (w : Worker) (now ttl : Int) : Bool :=
  decide (w.last_heartbeat < now - ttl)

/-- `Worker.save_heartbeat` (`task.py` lines 137-147):
`self.save(update_fields=["last_heartbeat"])` with `auto_now=True`, so the
save writes only `last_heartbeat`, set to the current time. -/
def Worker.save_heartbeat (w : Worker) (now : Int) : Worker :=
  { w with last_heartbeat := now }

/-- Modelled from the spec: the heartbeat handler that the contract
`heartbeat(workerID)` names is not among the source files (only
`Worker.save_heartbeat` is); the spec says it "creates the worker record on
first call, otherwise updates only the timestamp field". The registry is the
list of worker rows. -/
def heartbeat (registry : List Worker) (workerName : String) (now : Int) :
    List Worker :=
  match registry.find? (fun w => w.name == workerName) with
  | none => registry ++ [⟨workerName, now⟩]
  | some _ =>
      registry.map (fun w =>
        if w.name == workerName then w.save_heartbeat now else w)

/-- The `TaskGroup` model (`task.py`, class `TaskGroup`). -/
structure TaskGroup where
  description : String
  all_tasks_dispatched : Bool
  deriving DecidableEq, Repr

/-- `TaskGroup.finish` (`task.py` lines 314-322): set
`all_tasks_dispatched = True` unconditionally and save. -/
def TaskGroup.finish (g : TaskGroup) : TaskGroup :=
  { g with all_tasks_dispatched := true }

/-- A concrete already-finished task (canceled by an external canceler),
used to evaluate the theorems on terminal states. -/
def sampleFinished : Task :=
  ⟨TaskState.canceled, "t", "", some 1, some 5, none, some ["x"]⟩

/-- A concrete freshly-created waiting task, used to evaluate the theorems on
non-terminal states. -/
def sampleWaiting : Task :=
  ⟨TaskState.waiting, "t", "", none, none, none, some ["x"]⟩

/- ### Theorems -/

/-- Helper: no final state is the waiting state. -/
lemma final_ne_waiting : ∀ s ∈ TASK_FINAL_STATES, s ≠ TaskState.waiting := by
  decide

/-- C4: for every 128-bit task identity `pk`, the advisory-lock key computed
by `__enter__` (and stored on `self.lock`, hence reused by `__exit__`) equals
`((id >> 64) XOR id) & 0x7FFFFFFFFFFFFFFF`, is strictly below `2^63`, and the
acquire is a non-blocking attempt on exactly that key: it fails when the key
is held and otherwise acquires it. -/
theorem advisory_lock_key_correct (pk : Nat) (held : List Nat) :
    _uuid_to_advisory_lock pk = advisoryLockKeySpec pk ∧
    _uuid_to_advisory_lock pk < 2 ^ 63 ∧
    (_uuid_to_advisory_lock pk ∈ held →
      Task.enter pk held = Except.error "Could not acquire lock.") ∧
    (_uuid_to_advisory_lock pk ∉ held →
      Task.enter pk held =
        Except.ok (⟨pk, _uuid_to_advisory_lock pk⟩,
          _uuid_to_advisory_lock pk :: held)) := by
  refine ⟨rfl, ?_, ?_, ?_⟩
  · have h : _uuid_to_advisory_lock pk ≤ 0x7FFFFFFFFFFFFFFF :=
      Nat.and_le_right
    omega
  · intro h
    simp [Task.enter, h]
  · intro h
    simp [Task.enter, h]

/-- Witness for C4 at a concrete identity and lock table. -/
theorem advisory_lock_key_correct_witness :
    _uuid_to_advisory_lock 5 ∉ ([3] : List Nat) ∧
    Task.enter 5 [3] = Except.ok (⟨5, _uuid_to_advisory_lock 5⟩,
      _uuid_to_advisory_lock 5 :: [3]) :=
  ⟨by decide, (advisory_lock_key_correct 5 [3]).2.2.2 (by decide)⟩

/-- C8: the 63-bit folding is not injective: two distinct 128-bit identities
(`0` and `2^63`) map to the same advisory-lock key. -/
theorem advisory_lock_key_collision :
    ∃ a b : Nat, a < 2 ^ 128 ∧ b < 2 ^ 128 ∧ a ≠ b ∧
      _uuid_to_advisory_lock a = _uuid_to_advisory_lock b := by
  refine ⟨0, 2 ^ 63, by norm_num, by norm_num, by norm_num, ?_⟩
  decide

/-- C1: a task in a terminal state (completed, failed, canceled or skipped)
is changed by none of `set_running`, `set_completed`, `set_failed`: each
conditional update matches zero rows, so the durable record keeps its state
and no terminal state is ever followed by another state. -/
theorem terminal_state_frozen (c : TaskCtx) (now : Int) (exc tb_str : String)
    (h : c.db.state ∈ TASK_FINAL_STATES) :
    (c.set_running now).1.db = c.db ∧
    (c.set_completed now).1.db = c.db ∧
    (c.set_failed exc tb_str now).1.db = c.db := by
  have hw := final_ne_waiting _ h
  refine ⟨?_, ?_, ?_⟩ <;>
    simp [TaskCtx.set_running, TaskCtx.set_completed, TaskCtx.set_failed,
      hw, h]

/-- Witness for C1 at a concrete canceled task. -/
theorem terminal_state_frozen_witness :
    sampleFinished.state ∈ TASK_FINAL_STATES ∧
    (((⟨sampleFinished, sampleFinished⟩ : TaskCtx).set_running 7).1.db =
        sampleFinished ∧
      ((⟨sampleFinished, sampleFinished⟩ : TaskCtx).set_completed 7).1.db =
        sampleFinished ∧
      ((⟨sampleFinished, sampleFinished⟩ :
          TaskCtx).set_failed "e" "tb" 7).1.db = sampleFinished) :=
  ⟨by decide,
   terminal_state_frozen ⟨sampleFinished, sampleFinished⟩ 7 "e" "tb"
     (by decide)⟩

/-- C2: `set_failed` on a task already in a terminal state matches zero rows
and raises the fatal `RuntimeError` instead of logging a warning; on a task
in a non-terminal state it sets the state to failed, sets `finished_at`, and
records the structured error payload. -/
theorem set_failed_behavior (c : TaskCtx) (exc tb_str : String) (now : Int) :
    (c.db.state ∈ TASK_FINAL_STATES →
      c.set_failed exc tb_str now =
        (c, some "Attempt to set a finished task to failed.")) ∧
    (c.db.state ∉ TASK_FINAL_STATES →
      (c.set_failed exc tb_str now).2 = none ∧
      (c.set_failed exc tb_str now).1.db.state = TaskState.failed ∧
      (c.set_failed exc tb_str now).1.db.finishedAt = some now ∧
      (c.set_failed exc tb_str now).1.db.error =
        some (exception_to_dict exc tb_str)) := by
  constructor
  · intro h
    simp [TaskCtx.set_failed, h]
  · intro h
    simp [TaskCtx.set_failed, h]

/-- Witness for C2: the fatal branch at a canceled task, the success branch
at a waiting task. -/
theorem set_failed_behavior_witness :
    ((⟨sampleFinished, sampleFinished⟩ : TaskCtx).set_failed "e" "tb" 7 =
      (⟨sampleFinished, sampleFinished⟩,
        some "Attempt to set a finished task to failed.")) ∧
    (((⟨sampleWaiting, sampleWaiting⟩ : TaskCtx).set_failed "e" "tb" 7).2 =
        none ∧
      ((⟨sampleWaiting, sampleWaiting⟩ :
          TaskCtx).set_failed "e" "tb" 7).1.db.state = TaskState.failed ∧
      ((⟨sampleWaiting, sampleWaiting⟩ :
          TaskCtx).set_failed "e" "tb" 7).1.db.finishedAt = some 7 ∧
      ((⟨sampleWaiting, sampleWaiting⟩ :
          TaskCtx).set_failed "e" "tb" 7).1.db.error =
        some (exception_to_dict "e" "tb")) :=
  ⟨(set_failed_behavior ⟨sampleFinished, sampleFinished⟩ "e" "tb" 7).1
     (by decide),
   (set_failed_behavior ⟨sampleWaiting, sampleWaiting⟩ "e" "tb" 7).2
     (by decide)⟩

/-- C3 counterexample: the claim puts the boundary wrong. At heartbeat age
exactly TTL (`last_heartbeat = 90`, `now = 100`, `TTL = 10`, so
`now - last_heartbeat ≥ TTL`) the code classifies the worker as online, not
missing: `Worker.online` uses `last_heartbeat >= now - TTL`. -/
theorem worker_ttl_boundary_counterexample :
    Worker.missing ⟨"w@h", 90⟩ 100 10 = false ∧
    Worker.online ⟨"w@h", 90⟩ 100 10 = true ∧
    (100 : Int) - 90 ≥ 10 := by
  decide

/-- C3 amended: a worker is online exactly when `now - last_heartbeat ≤ TTL`
and missing exactly when `now - last_heartbeat > TTL`; in particular a worker
whose heartbeat age is exactly TTL is online (not missing), one with
`last_heartbeat = now - TTL - 1s` is missing, and one with
`last_heartbeat = now` is online. -/
theorem worker_online_missing_classification (nm : String)
    (hb now ttl : Int) (h : 0 ≤ ttl) :
    (Worker.online ⟨nm, hb⟩ now ttl = true ↔ now - hb ≤ ttl) ∧
    (Worker.missing ⟨nm, hb⟩ now ttl = true ↔ ttl < now - hb) ∧
    Worker.online ⟨nm, now - ttl⟩ now ttl = true ∧
    Worker.missing ⟨nm, now - ttl⟩ now ttl = false ∧
    Worker.missing ⟨nm, now - ttl - 1⟩ now ttl = true ∧
    Worker.online ⟨nm, now⟩ now ttl = true := by
  simp only [Worker.online, Worker.missing, decide_eq_true_eq,
    decide_eq_false_iff_not]
  omega

/-- Witness for C3's amended theorem at `now = 100`, `TTL = 10`. -/
theorem worker_online_missing_classification_witness :
    (0 : Int) ≤ 10 ∧
    ((Worker.online ⟨"w@h", 90⟩ 100 10 = true ↔ (100 : Int) - 90 ≤ 10) ∧
      (Worker.missing ⟨"w@h", 90⟩ 100 10 = true ↔ (10 : Int) < 100 - 90) ∧
      Worker.online ⟨"w@h", 100 - 10⟩ 100 10 = true ∧
      Worker.missing ⟨"w@h", 100 - 10⟩ 100 10 = false ∧
      Worker.missing ⟨"w@h", 100 - 10 - 1⟩ 100 10 = true ∧
      Worker.online ⟨"w@h", 100⟩ 100 10 = true) :=
  ⟨by decide,
   worker_online_missing_classification "w@h" 90 100 10 (by decide)⟩

/-- C5: `heartbeat(workerID)` creates the worker record on the first call;
on a later call it maps `save_heartbeat` over the registry, which changes
only the `last_heartbeat` of the named worker: every worker keeps its name,
and workers with a different name are untouched. -/
theorem heartbeat_frame (reg : List Worker) (nm : String) (now : Int) :
    (reg.find? (fun w => w.name == nm) = none →
      heartbeat reg nm now = reg ++ [⟨nm, now⟩]) ∧
    (∀ v, reg.find? (fun w => w.name == nm) = some v →
      heartbeat reg nm now =
        reg.map (fun w => if w.name == nm then w.save_heartbeat now else w)) ∧
    (∀ w : Worker,
      (if w.name == nm then w.save_heartbeat now else w).name = w.name) ∧
    (∀ w : Worker, w.name ≠ nm →
      (if w.name == nm then w.save_heartbeat now else w) = w) := by
  refine ⟨?_, ?_, ?_, ?_⟩
  · intro h
    simp [heartbeat, h]
  · intro v h
    simp [heartbeat, h]
  · intro w
    by_cases hw : w.name = nm <;> simp [Worker.save_heartbeat, hw]
  · intro w hw
    simp [hw]

/-- Witness for C5: a first heartbeat creates the record; a repeated
heartbeat is the name-preserving map. -/
theorem heartbeat_frame_witness :
    heartbeat [] "w@h" 5 = [] ++ [⟨"w@h", 5⟩] ∧
    heartbeat [⟨"w@h", 0⟩] "w@h" 9 =
      [⟨"w@h", 0⟩].map
        (fun w => if w.name == "w@h" then w.save_heartbeat 9 else w) :=
  ⟨(heartbeat_frame [] "w@h" 5).1 rfl,
   (heartbeat_frame [⟨"w@h", 0⟩] "w@h" 9).2.1 ⟨"w@h", 0⟩ (by decide)⟩

/-- C6: `set_running` performs the conditional update "state to running,
`started_at = now` where state = waiting"; on zero matched rows it only
warns (Bool `true`), never raises, and leaves the record as the durable
store has it; in every case the in-memory instance is refreshed to equal the
durable row. -/
theorem set_running_behavior (c : TaskCtx) (now : Int) :
    (c.db.state = TaskState.waiting →
      c.set_running now =
        (⟨{ c.db with state := TaskState.running, startedAt := some now },
           { c.db with state := TaskState.running, startedAt := some now }⟩,
         false)) ∧
    (c.db.state ≠ TaskState.waiting →
      c.set_running now = (⟨c.db, c.db⟩, true)) ∧
    (c.set_running now).1.mem = (c.set_running now).1.db := by
  refine ⟨?_, ?_, ?_⟩
  · intro h
    simp [TaskCtx.set_running, h]
  · intro h
    simp [TaskCtx.set_running, h]
  · by_cases h : c.db.state = TaskState.waiting <;>
      simp [TaskCtx.set_running, h]

/-- Witness for C6 at a waiting task and at a canceled task. -/
theorem set_running_behavior_witness :
    ((⟨sampleWaiting, sampleWaiting⟩ : TaskCtx).set_running 7 =
      (⟨{ sampleWaiting with
            state := TaskState.running, startedAt := some 7 },
         { sampleWaiting with
            state := TaskState.running, startedAt := some 7 }⟩, false)) ∧
    ((⟨sampleFinished, sampleFinished⟩ : TaskCtx).set_running 7 =
      (⟨sampleFinished, sampleFinished⟩, true)) :=
  ⟨(set_running_behavior ⟨sampleWaiting, sampleWaiting⟩ 7).1 rfl,
   (set_running_behavior ⟨sampleFinished, sampleFinished⟩ 7).2.1
     (by decide)⟩

/-- C7: `TaskGroup.finish` sets `all_tasks_dispatched` to true
unconditionally and is idempotent: a second call leaves the task group in
exactly the same state. -/
theorem finish_idempotent (g : TaskGroup) :
    g.finish.all_tasks_dispatched = true ∧ g.finish.finish = g.finish := by
  simp [TaskGroup.finish]

/-- C9: `set_completed` on a waiting task moves it directly to completed
with `finished_at = now`, without passing through running and with
`started_at` remaining null: the update only excludes terminal states, it
does not require state = running. -/
theorem set_completed_from_waiting (c : TaskCtx) (now : Int)
    (h : c.db.state = TaskState.waiting) (h0 : c.db.startedAt = none) :
    (c.set_completed now).1.db.state = TaskState.completed ∧
    (c.set_completed now).1.db.finishedAt = some now ∧
    (c.set_completed now).1.db.startedAt = none ∧
    (c.set_completed now).2 = false := by
  have hnf : c.db.state ∉ TASK_FINAL_STATES := by
    rw [h]; decide
  simp [TaskCtx.set_completed, hnf, h0]

/-- Witness for C9 at a concrete waiting task. -/
theorem set_completed_from_waiting_witness :
    sampleWaiting.state = TaskState.waiting ∧
    sampleWaiting.startedAt = none ∧
    (((⟨sampleWaiting, sampleWaiting⟩ : TaskCtx).set_completed 7).1.db.state =
        TaskState.completed ∧
      ((⟨sampleWaiting, sampleWaiting⟩ :
          TaskCtx).set_completed 7).1.db.finishedAt = some 7 ∧
      ((⟨sampleWaiting, sampleWaiting⟩ :
          TaskCtx).set_completed 7).1.db.startedAt = none ∧
      ((⟨sampleWaiting, sampleWaiting⟩ : TaskCtx).set_completed 7).2 =
        false) :=
  ⟨rfl, rfl,
   set_completed_from_waiting ⟨sampleWaiting, sampleWaiting⟩ 7 rfl rfl⟩

/-- C10: when `set_failed` raises because the task is already terminal, the
zero-row update modifies nothing: durable row and in-memory instance both
keep their state, `finished_at` and `error` (the raise happens before
`refresh_from_db`). -/
theorem set_failed_fatal_no_change (c : TaskCtx) (exc tb_str : String)
    (now : Int) (h : c.db.state ∈ TASK_FINAL_STATES) :
    (c.set_failed exc tb_str now).1 = c ∧
    (c.set_failed exc tb_str now).2.isSome = true ∧
    (c.set_failed exc tb_str now).1.db.state = c.db.state ∧
    (c.set_failed exc tb_str now).1.db.finishedAt = c.db.finishedAt ∧
    (c.set_failed exc tb_str now).1.db.error = c.db.error := by
  simp [TaskCtx.set_failed, h]

/-- Witness for C10 at a concrete canceled task. -/
theorem set_failed_fatal_no_change_witness :
    sampleFinished.state ∈ TASK_FINAL_STATES ∧
    (((⟨sampleFinished, sampleFinished⟩ :
          TaskCtx).set_failed "e" "tb" 7).1 =
        ⟨sampleFinished, sampleFinished⟩ ∧
      ((⟨sampleFinished, sampleFinished⟩ :
          TaskCtx).set_failed "e" "tb" 7).2.isSome = true ∧
      ((⟨sampleFinished, sampleFinished⟩ :
          TaskCtx).set_failed "e" "tb" 7).1.db.state = sampleFinished.state ∧
      ((⟨sampleFinished, sampleFinished⟩ :
          TaskCtx).set_failed "e" "tb" 7).1.db.finishedAt =
        sampleFinished.finishedAt ∧
      ((⟨sampleFinished, sampleFinished⟩ :
          TaskCtx).set_failed "e" "tb" 7).1.db.error =
        sampleFinished.error) :=
  ⟨by decide,
   set_failed_fatal_no_change ⟨sampleFinished, sampleFinished⟩ "e" "tb" 7
     (by decide)⟩

end Pulp
